import Mathlib

/-!
# Upload handlers of the file-storage service

A shallow embedding of `handlerUploadThumbnail` (src/handler_upload_thumbnail.go)
and `handlerUploadVideo` (src/handler_upload_video.go).

* Go strings are Lean strings; the only string computations the handlers make
  themselves (truncation of the identifier, `strings.LastIndex` and slicing of
  the stored thumbnail URL, `fmt.Sprintf("%s/%s", ..)`) are carried out on the
  character lists.
* A byte is a `Fin 256`.
* Disk, object store and record store are explicit state; every call that
  mutates one of them is also appended to a call log.
* The outcome of each call into a library or into a collaborator whose code is
  not part of the two files (UUID parsing, bearer token, JWT validation,
  multipart parsing, media-type parsing, random source, file creation, copying,
  removal, probe, remux, object upload, record update) is an input of the run.
-/

namespace FileStorage

/-! ## Bytes and base64 (Go `encoding/base64`, `RawURLEncoding`) -/

abbrev Byte := Fin 256

abbrev Bytes := List Byte

/-- The URL-safe alphabet of `encoding/base64` (`encodeURL`). -/
def encodeURL : List Char :=
  "ABCDEFGHIJKLMNOPQRSTUVWXYZabcdefghijklmnopqrstuvwxyz0123456789-_".data

/-- The table lookup `enc.encode[v & 0x3F]`. -/
def encodeChar (v : Nat) : Char :=
  encodeURL.getD (v &&& 0x3F) 'A'

/-- The body of `(*Encoding).Encode` for an encoding without padding: every full
group of three source bytes yields four characters, a remainder of one byte
yields two characters and a remainder of two bytes yields three. -/
def encode : Bytes → List Char
  | [] => []
  | [b0] =>
      let val := b0.val <<< 16
      [encodeChar (val >>> 18), encodeChar (val >>> 12)]
  | [b0, b1] =>
      let val := (b0.val <<< 16) ||| (b1.val <<< 8)
      [encodeChar (val >>> 18), encodeChar (val >>> 12), encodeChar (val >>> 6)]
  | b0 :: b1 :: b2 :: rest =>
      let val := (b0.val <<< 16) ||| (b1.val <<< 8) ||| b2.val
      encodeChar (val >>> 18) :: encodeChar (val >>> 12) :: encodeChar (val >>> 6)
        :: encodeChar val :: encode rest

/-- The call `base64.RawURLEncoding.EncodeToString(bytes)`. -/
def EncodeToString (bytes : Bytes) : String :=
  String.mk (encode bytes)

/-- Lines 78-80 of the thumbnail handler:
`if len(uniqueID) > 32 { uniqueID = uniqueID[:32] }`. -/
def truncateID (uniqueID : String) : String :=
  if uniqueID.length > 32 then String.mk (uniqueID.data.take 32) else uniqueID

/-- Lines 77-80 of the thumbnail handler: the identifier derived from the random
bytes. -/
def uniqueID (bytes : Bytes) : String :=
  truncateID (EncodeToString bytes)

/-- A concrete 32-byte value: 0, 1, ..., 31. -/
def sampleBytes : Bytes :=
  (List.range 32).map (fun n => Fin.ofNat n)

/-- A second 32-byte value: 0, 1, ..., 23 followed by eight bytes 255. -/
def sampleBytes2 : Bytes :=
  (List.range 24).map (fun n => Fin.ofNat n) ++ List.replicate 8 255

/-! ## Data model -/

/-- A `uuid.UUID`; the handlers only compare identifiers for equality. -/
abbrev UUID := Nat

/-- The fields of `database.Video` that the handlers read or write. A nil
`*string` is `none`. -/
structure Video where
  ID : UUID
  UserID : UUID
  ThumbnailURL : Option String
  VideoURL : Option String
  CreatedAt : Nat
  UpdatedAt : Nat
  deriving DecidableEq, Repr

abbrev StatusOK : Nat := 200
abbrev StatusBadRequest : Nat := 400
abbrev StatusUnauthorized : Nat := 401
abbrev StatusNotFound : Nat := 404
abbrev StatusRequestEntityTooLarge : Nat := 413
abbrev StatusUnsupportedMediaType : Nat := 415
abbrev StatusInternalServerError : Nat := 500

/-- What a handler writes to the response: `respondWithError(w, code, msg, err)`
or `respondWithJSON(w, code, payload)`. -/
inductive Response where
  | error (code : Nat) (msg : String)
  | json (code : Nat) (payload : Video)
  deriving DecidableEq, Repr

/-- The HTTP status of a response. -/
def Response.status : Response → Nat
  | .error code _ => code
  | .json code _ => code

/-- The calls by which a handler can change the disk, the object store or the
record store, with their arguments. A call is logged when it is made, whether
or not it succeeds. -/
inductive Call where
  | remove (path : String)
  | create (path : String)
  | createTemp (name : Option String)
  | copy (dst : String)
  | processVideo (input : String)
  | putObject (key : String)
  | updateVideo (video : Video)
  deriving DecidableEq, Repr

/-- Disk (`files`), bucket (`objects`), record store (`videos`) and the log of
mutating calls made so far. The disk maps a file, named by the path it resolves
to (`Env.resolve`), to its bytes. -/
structure State where
  files : String → Option Bytes
  objects : String → Option Bytes
  videos : UUID → Option Video
  calls : List Call

/-- The file part returned by `r.FormFile(name)`: the bytes that can be read from
`file`, `header.Size`, and the first result of
`mime.ParseMediaType(header.Header.Get("Content-Type"))`, `none` when that call
returns an error (as it does for an empty value). -/
structure FormFile where
  content : Bytes
  Size : Int
  mediaType : Option String

/-- What the handlers read from the request: the result of
`uuid.Parse(r.PathValue("videoID"))` (`none` on error), of
`auth.GetBearerToken(r.Header)` (`none` on error) and of `r.FormFile(name)`
(`none` on error). -/
structure Request where
  videoID : Option UUID
  token : Option String
  formFile : Option FormFile

/-- The helper methods and functions of the package that the handlers call and
that are defined outside the two files. `getAssetPath` is called with the
identifier and the media type by the thumbnail handler and with the media type
alone by the video handler, so it takes the list of its arguments. -/
structure apiConfig where
  getAssetPath : List String → String
  getAssetDiskPath : String → String
  getAssetURL : String → String
  getObjectURL : String → String → String

/-- What `processVideoForFastStart` did in a run: it returned the path of the
output file it wrote, or it returned an error, in which case the external tool
may have left the file it was writing (`left`). -/
inductive RemuxResult where
  | ok (outputPath : String) (output : Bytes)
  | failed (left : Option (String × Bytes))

/-- The outcome, in one run, of every call whose result is decided outside the
handler. -/
structure Env where
  /-- The file a path names on this disk: two paths that name the same file, such
  as `assets/./a.png` and `assets/a.png`, resolve to the same value. -/
  resolve : String → String
  /-- The call `auth.ValidateJWT(token, cfg.jwtSecret)`; `none` on error. -/
  ValidateJWT : String → Option UUID
  /-- The buffer after `rand.Read(bytes)`. -/
  randBytes : Bytes
  /-- The count returned by `rand.Read`. -/
  randN : Nat
  /-- Whether `rand.Read` returned an error. -/
  randErr : Bool
  /-- Whether `os.Remove(path)` fails and leaves the file. -/
  removeFails : String → Bool
  /-- Whether `os.Create` fails. -/
  createFails : Bool
  /-- The call `io.Copy(dst, file)`: `none` when all bytes are written, `some n`
  when it fails after writing `n` bytes. -/
  copyFails : Option Nat
  /-- Whether `cfg.db.UpdateVideo` returns an error. -/
  updateVideoFails : Bool
  /-- The name of the file made by `os.CreateTemp`; `none` on error. -/
  createTemp : Option String
  /-- The helper `getVideoAspectRatio(filePath)`, defined outside the two files;
  `none` on error. -/
  getVideoAspectRatio : String → Option String
  /-- The call `processVideoForFastStart(tempfile.Name())`. -/
  processVideoForFastStart : RemuxResult
  /-- Whether `os.Open` fails on an existing file. -/
  openFails : Bool
  /-- Whether `cfg.s3Client.PutObject` returns an error. -/
  putObjectFails : Bool

/-! ## Operations on the state -/

/-- A store with the entry at `key` replaced. -/
def setAt {α : Type} (m : String → Option α) (key : String) (v : Option α) :
    String → Option α :=
  fun k => if k = key then v else m k

/-- Appends a call to the log. -/
def State.log (st : State) (c : Call) : State :=
  { st with calls := st.calls ++ [c] }

/-- The call `os.Remove(path)`; its error is dropped by every caller. -/
def osRemove (env : Env) (path : String) (st : State) : State :=
  { st with
    files := if env.removeFails path then st.files
             else setAt st.files (env.resolve path) none
    calls := st.calls ++ [Call.remove path] }

/-- The call `os.Create(path)`: on success the file exists and is empty. Returns
whether the call succeeded. -/
def osCreate (env : Env) (path : String) (st : State) : Bool × State :=
  if env.createFails then (false, st.log (Call.create path))
  else (true, { st with files := setAt st.files (env.resolve path) (some []),
                        calls := st.calls ++ [Call.create path] })

/-- The call `io.Copy(dst, file)` into the file at `path`. Returns whether the
call succeeded. -/
def ioCopy (env : Env) (path : String) (content : Bytes) (st : State) : Bool × State :=
  match env.copyFails with
  | none => (true, { st with files := setAt st.files (env.resolve path) (some content),
                             calls := st.calls ++ [Call.copy path] })
  | some n =>
      (false, { st with files := setAt st.files (env.resolve path) (some (content.take n)),
                        calls := st.calls ++ [Call.copy path] })

/-- Modelled from the spec: `cfg.db.GetVideo` belongs to the record store, which
is outside the two files; `getRecord(id) -> Record|NotFound`. -/
def GetVideo (st : State) (videoID : UUID) : Option Video :=
  st.videos videoID

/-- Modelled from the spec: `cfg.db.UpdateVideo` belongs to the record store,
which is outside the two files; `updateRecord(Record) -> ()|error`. On success
the record stored under `video.ID` is the one passed. Returns whether the call
succeeded. -/
def UpdateVideo (env : Env) (video : Video) (st : State) : Bool × State :=
  if env.updateVideoFails then (false, st.log (Call.updateVideo video))
  else (true, { st with
                videos := fun id => if id = video.ID then some video else st.videos id
                calls := st.calls ++ [Call.updateVideo video] })

/-- The call `cfg.s3Client.PutObject` with the given key and body. Returns
whether the call succeeded. -/
def PutObject (env : Env) (key : String) (body : Bytes) (st : State) : Bool × State :=
  if env.putObjectFails then (false, st.log (Call.putObject key))
  else (true, { st with objects := setAt st.objects key (some body),
                        calls := st.calls ++ [Call.putObject key] })

/-- The call `os.CreateTemp("", "tubely-upload.mp4")`: on success a new empty
file with the returned name exists. -/
def osCreateTemp (env : Env) (st : State) : Option String × State :=
  match env.createTemp with
  | none => (none, st.log (Call.createTemp none))
  | some name =>
      (some name, { st with files := setAt st.files (env.resolve name) (some []),
                            calls := st.calls ++ [Call.createTemp (some name)] })

/-- The call `processVideoForFastStart(input)`: returns the output path, `none`
on error; the state records the file the tool wrote. -/
def processVideoForFastStart (env : Env) (input : String) (st : State) :
    Option String × State :=
  match env.processVideoForFastStart with
  | .ok outputPath output =>
      (some outputPath,
        { st with files := setAt st.files (env.resolve outputPath) (some output),
                  calls := st.calls ++ [Call.processVideo input] })
  | .failed none => (none, st.log (Call.processVideo input))
  | .failed (some (path, written)) =>
      (none, { st with files := setAt st.files (env.resolve path) (some written),
                       calls := st.calls ++ [Call.processVideo input] })

/-- The call `os.Open(path)`: the bytes of the file, `none` on error. -/
def osOpen (env : Env) (path : String) (st : State) : Option Bytes :=
  if env.openFails then none else st.files (env.resolve path)

/-! ## The thumbnail handler -/

/-- The search of `strings.LastIndex(s, sep)` on character lists, `i` being the
position of the head of the list: the last position at which `sep` starts,
`none` for Go's `-1`. -/
def lastIndexFrom (sep : List Char) : List Char → Nat → Option Nat
  | [], i => if sep = [] then some i else none
  | c :: cs, i =>
      match lastIndexFrom sep cs (i + 1) with
      | some j => some j
      | none => if (c :: cs).take sep.length = sep then some i else none

/-- The call `strings.LastIndex(s, sep)`. Positions count characters; for the
separator used by the handler, which is ASCII, the slice `s[idx+len(sep):]` is
the same text whether positions count characters or bytes. -/
def LastIndex (s sep : String) : Option Nat :=
  lastIndexFrom sep.data s.data 0

/-- Lines 87-88: the asset path cut out of the stored thumbnail URL,
`(*video.ThumbnailURL)[idx+len("/assets/"):]`; `none` when the URL does not
contain `"/assets/"`. -/
def oldAssetPath (url : String) : Option String :=
  match LastIndex url "/assets/" with
  | none => none
  | some idx => some (String.mk (url.data.drop (idx + "/assets/".length)))

/-- Lines 84-94: removal of the file of the previous thumbnail. -/
def removeOldThumbnail (cfg : apiConfig) (env : Env) (video : Video)
    (assetDiskPath : String) (st : State) : State :=
  match video.ThumbnailURL with
  | none => st
  | some url =>
      if url ≠ "" then
        match oldAssetPath url with
        | none => st
        | some oldPath =>
            let oldAssetDiskPath := cfg.getAssetDiskPath oldPath
            if oldAssetDiskPath ≠ assetDiskPath then osRemove env oldAssetDiskPath st
            else st
      else st

/-- Lines 70-120 of `handlerUploadThumbnail`: what the handler does once the
record has been fetched and its owner checked. -/
def storeThumbnail (cfg : apiConfig) (env : Env) (file : FormFile) (mediaType : String)
    (video : Video) (st : State) : Response × State :=
  if env.randErr || env.randN != 32 then
    (.error StatusInternalServerError "Unable to generate unique ID", st)
  else
    let assetPath := cfg.getAssetPath [uniqueID env.randBytes, mediaType]
    let assetDiskPath := cfg.getAssetDiskPath assetPath
    let st1 := removeOldThumbnail cfg env video assetDiskPath st
    match osCreate env assetDiskPath st1 with
    | (false, st2) => (.error StatusInternalServerError "Unable to create file", st2)
    | (true, st2) =>
        match ioCopy env assetDiskPath file.content st2 with
        | (false, st3) => (.error StatusInternalServerError "Unable to copy file", st3)
        | (true, st3) =>
            let thumbnailURL := cfg.getAssetURL assetPath
            let video1 := { video with ThumbnailURL := some thumbnailURL }
            let st4 := (UpdateVideo env video1 st3).2
            (.json StatusOK
                { ID := video1.ID, UserID := 0, ThumbnailURL := video1.ThumbnailURL,
                  CreatedAt := video1.CreatedAt, UpdatedAt := video1.UpdatedAt,
                  VideoURL := video1.VideoURL },
              st4)

/-- The handler `handlerUploadThumbnail` (src/handler_upload_thumbnail.go): the
response written and the state when the handler returns. -/
def handlerUploadThumbnail (cfg : apiConfig) (env : Env) (r : Request) (st : State) :
    Response × State :=
  match r.videoID with
  | none => (.error StatusBadRequest "Invalid ID", st)
  | some videoID =>
  match r.token with
  | none => (.error StatusUnauthorized "Couldn't find JWT", st)
  | some token =>
  match env.ValidateJWT token with
  | none => (.error StatusUnauthorized "Couldn't validate JWT", st)
  | some userID =>
  match r.formFile with
  | none => (.error StatusBadRequest "Unable to parse form file", st)
  | some file =>
  match file.mediaType with
  | none => (.error StatusBadRequest "Invalid media type", st)
  | some mediaType =>
  if mediaType ≠ "image/jpeg" ∧ mediaType ≠ "image/png" then
    (.error StatusUnsupportedMediaType "Unsupported media type", st)
  else
  match GetVideo st videoID with
  | none => (.error StatusInternalServerError "Unable to get video", st)
  | some video =>
  if video.UserID ≠ userID then
    (.error StatusUnauthorized "You are not allowed to upload a thumbnail for this video", st)
  else storeThumbnail cfg env file mediaType video st

/-! ## The video handler -/

/-- The constant `uploadLimit = 1 << 30`. -/
def uploadLimit : Int := 1 <<< 30

/-- Lines 86-94: the folder chosen by the switch on the aspect ratio. -/
def folderFor (aspectRatio : String) : String :=
  if aspectRatio = "16:9" then "landscape"
  else if aspectRatio = "9:16" then "portrait"
  else "other"

/-- Lines 104-134 of `handlerUploadVideo`: what the handler does once
`os.Open(processedFilePath)` has returned and the removal of the processed file
has been deferred. -/
def uploadProcessed (cfg : apiConfig) (env : Env) (video : Video) (mimeType folder : String)
    (processedFilePath : String) (st : State) : Response × State :=
  match osOpen env processedFilePath st with
  | none => (.error StatusInternalServerError "Unable to open processed video", st)
  | some processedFile =>
      if env.randErr || env.randN != 32 then
        (.error StatusInternalServerError "Unable to generate unique ID", st)
      else
        let fileKey := cfg.getAssetPath [mimeType]
        match PutObject env (folder ++ "/" ++ fileKey) processedFile st with
        | (false, st1) => (.error StatusInternalServerError "Failed to upload video to S3", st1)
        | (true, st1) =>
            let url := cfg.getObjectURL folder fileKey
            let video1 := { video with VideoURL := some url }
            match UpdateVideo env video1 st1 with
            | (false, st2) =>
                (.error StatusInternalServerError "Failed to update video in database", st2)
            | (true, st2) => (.json StatusOK video1, st2)

/-- Lines 77-134 of `handlerUploadVideo`: what the handler does between the two
deferred calls on the temporary file and their execution. -/
def processStaged (cfg : apiConfig) (env : Env) (file : FormFile) (video : Video)
    (mimeType : String) (tempName : String) (st : State) : Response × State :=
  let st1 := (ioCopy env tempName file.content st).2
  match env.getVideoAspectRatio tempName with
  | none => (.error StatusInternalServerError "Unable to get video aspect ratio", st1)
  | some aspectRatio =>
      let folder := folderFor aspectRatio
      match processVideoForFastStart env tempName st1 with
      | (none, st2) => (.error StatusInternalServerError "Unable to process video", st2)
      | (some processedFilePath, st2) =>
          let out := uploadProcessed cfg env video mimeType folder processedFilePath st2
          (out.1, osRemove env processedFilePath out.2)

/-- The handler `handlerUploadVideo` (src/handler_upload_video.go): the response
written and the state when the handler returns, the deferred calls included. -/
def handlerUploadVideo (cfg : apiConfig) (env : Env) (r : Request) (st : State) :
    Response × State :=
  match r.videoID with
  | none => (.error StatusBadRequest "Invalid ID", st)
  | some videoID =>
  match r.token with
  | none => (.error StatusUnauthorized "Couldn't find JWT", st)
  | some token =>
  match env.ValidateJWT token with
  | none => (.error StatusUnauthorized "Couldn't validate JWT", st)
  | some userID =>
  match GetVideo st videoID with
  | none => (.error StatusNotFound "Video not found", st)
  | some video =>
  if video.UserID ≠ userID then
    (.error StatusUnauthorized "You are not allowed to upload this video", st)
  else
  match r.formFile with
  | none => (.error StatusBadRequest "Unable to parse form file", st)
  | some file =>
  if file.Size > uploadLimit then
    (.error StatusRequestEntityTooLarge "File size exceeds limit", st)
  else
  match file.mediaType with
  | none => (.error StatusBadRequest "Invalid media type", st)
  | some mimeType =>
  if mimeType ≠ "video/mp4" then
    (.error StatusUnsupportedMediaType "Unsupported media type", st)
  else
  match osCreateTemp env st with
  | (none, st1) => (.error StatusInternalServerError "Unable to create temporary file", st1)
  | (some tempName, st1) =>
      let out := processStaged cfg env file video mimeType tempName st1
      (out.1, osRemove env tempName out.2)

/-- Modelled from the spec: the classification made by `getVideoAspectRatio`,
which is defined outside the two files. The ratio of the probed width and height
is compared against 16:9 and 9:16 within a tolerance, and anything matching
neither is `other`. The tolerance is not given by the spec and is left as a
parameter. -/
def classifyAspectRatio (tolerance : ℚ) (width height : Nat) : String :=
  let ratio : ℚ := (width : ℚ) / (height : ℚ)
  if |ratio - 16 / 9| ≤ tolerance then "16:9"
  else if |ratio - 9 / 16| ≤ tolerance then "9:16"
  else "other"

/-- Modelled from the spec: `getVideoAspectRatio(filePath)` is defined outside
the two files. The media-inspection tool is run against the file path and
reports the width and height of the stream (`probe`, `none` when it fails); the
result is the classification of that geometry. -/
def getVideoAspectRatio (tolerance : ℚ) (probe : String → Option (Nat × Nat))
    (filePath : String) : Option String :=
  match probe filePath with
  | none => none
  | some (width, height) => some (classifyAspectRatio tolerance width height)

/-! ## A concrete deployment, used for the runs evaluated below -/

/-- Modelled from the spec: the content-type-to-extension mapping of the key
derivation (image/jpeg, image/png, video/mp4), defined outside the two files. -/
def mediaTypeToExt (mediaType : String) : String :=
  if mediaType = "image/jpeg" then ".jpg"
  else if mediaType = "image/png" then ".png"
  else if mediaType = "video/mp4" then ".mp4"
  else ".bin"

/-- Modelled from the spec: an instance of the helpers defined outside the two
files. The asset path is the identifier followed by the extension, the disk
path and the public URL are the asset path under a directory root and a base
URL, and the object URL is built from a base URL, the folder and the key. -/
def exampleConfig : apiConfig where
  getAssetPath := fun args =>
    match args with
    | [id, mediaType] => id ++ mediaTypeToExt mediaType
    | [mediaType] => "clip" ++ mediaTypeToExt mediaType
    | _ => ""
  getAssetDiskPath := fun assetPath => "assets/" ++ assetPath
  getAssetURL := fun assetPath => "http://localhost:8091/assets/" ++ assetPath
  getObjectURL := fun folder key => "https://tubely.s3.amazonaws.com/" ++ folder ++ "/" ++ key

/-- A run in which every call succeeds: every path names a file of its own, two
users hold valid tokens, the random source fills the buffer, the probe reports
16:9 and the remux writes its output next to the staged file. -/
def exampleEnv : Env where
  resolve := fun path => path
  ValidateJWT := fun token =>
    if token = "alice-token" then some 1 else if token = "bob-token" then some 2 else none
  randBytes := sampleBytes
  randN := 32
  randErr := false
  removeFails := fun _ => false
  createFails := false
  copyFails := none
  updateVideoFails := false
  createTemp := some "/tmp/tubely-upload.mp4-1"
  getVideoAspectRatio := fun _ => some "16:9"
  processVideoForFastStart := .ok "/tmp/tubely-upload.mp4-1.processing" [4, 5, 6]
  openFails := false
  putObjectFails := false

/-- The record 10, owned by user 1, with a thumbnail already stored. -/
def exampleVideo : Video where
  ID := 10
  UserID := 1
  ThumbnailURL := some "http://localhost:8091/assets/old.png"
  VideoURL := none
  CreatedAt := 100
  UpdatedAt := 100

/-- A state holding the record 10 and the file of its thumbnail. -/
def exampleState : State where
  files := fun path => if path = "assets/old.png" then some [1, 2, 3] else none
  objects := fun _ => none
  videos := fun id => if id = 10 then some exampleVideo else none
  calls := []

/-- A thumbnail upload for record 10 by its owner: a PNG of three bytes. -/
def thumbnailRequest : Request where
  videoID := some 10
  token := some "alice-token"
  formFile := some { content := [9, 8, 7], Size := 3, mediaType := some "image/png" }

/-- A video upload for record 10 by its owner: an MP4 of three bytes. -/
def videoRequest : Request where
  videoID := some 10
  token := some "alice-token"
  formFile := some { content := [7, 7, 7], Size := 3, mediaType := some "video/mp4" }

/-- Whether the request carries no bearer token or one that `auth.ValidateJWT`
rejects. -/
def credentialRejected (env : Env) (r : Request) : Bool :=
  match r.token with
  | none => true
  | some token => (env.ValidateJWT token).isNone

/-- A request without credential whose path value is not a UUID. -/
def malformedIDRequest : Request where
  videoID := none
  token := none
  formFile := some { content := [9, 8, 7], Size := 3, mediaType := some "image/png" }

/-- The upload of `thumbnailRequest` with a file part whose Content-Type value
`mime.ParseMediaType` rejects, such as the empty value. -/
def unparseableTypeThumbnailRequest : Request :=
  { thumbnailRequest with
    formFile := some { content := [9, 8, 7], Size := 3, mediaType := none } }

/-- The upload of `videoRequest` with a file part whose Content-Type value
`mime.ParseMediaType` rejects, such as the empty value. -/
def unparseableTypeVideoRequest : Request :=
  { videoRequest with
    formFile := some { content := [7, 7, 7], Size := 3, mediaType := none } }

/-- The upload of `thumbnailRequest` with a GIF. -/
def gifThumbnailRequest : Request :=
  { thumbnailRequest with
    formFile := some { content := [9, 8, 7], Size := 3, mediaType := some "image/gif" } }

/-- The run of `exampleEnv` in which `os.Create` fails. -/
def createFailsEnv : Env :=
  { exampleEnv with createFails := true }

/-- The run of `exampleEnv` in which `cfg.db.UpdateVideo` returns an error. -/
def updateFailsEnv : Env :=
  { exampleEnv with updateVideoFails := true }

/-- The run of `exampleEnv` in which `processVideoForFastStart` returns an error
after the external tool has started to write its output file. -/
def remuxFailsEnv : Env :=
  { exampleEnv with
    processVideoForFastStart := .failed (some ("/tmp/tubely-upload.mp4-1.processing", [4])) }

/-- The run of `exampleEnv` in which `getVideoAspectRatio` is the helper the spec
describes, with tolerance 1/100, and the probe reports 1080x1920. -/
def portraitProbeEnv : Env :=
  { exampleEnv with
    getVideoAspectRatio := getVideoAspectRatio (1 / 100) (fun _ => some (1080, 1920)) }

/-! ## Theorems -/

theorem encode_length_of_three_mul (n : Nat) :
    ∀ bs : Bytes, bs.length = 3 * n → (encode bs).length = 4 * n := by
  induction n with
  | zero =>
      intro bs h
      have : bs = [] := List.length_eq_zero.mp (by simpa using h)
      subst this
      simp [encode]
  | succ k ih =>
      intro bs h
      match bs, h with
      | b0 :: b1 :: b2 :: rest, h =>
          have hr : rest.length = 3 * k := by
            simp only [List.length_cons] at h
            omega
          simp only [encode, List.length_cons, ih rest hr]
          omega

theorem encode_append_of_three_mul (n : Nat) :
    ∀ (xs ys : Bytes), xs.length = 3 * n → encode (xs ++ ys) = encode xs ++ encode ys := by
  induction n with
  | zero =>
      intro xs ys h
      have : xs = [] := List.length_eq_zero.mp (by simpa using h)
      subst this
      simp [encode]
  | succ k ih =>
      intro xs ys h
      match xs, h with
      | b0 :: b1 :: b2 :: rest, h =>
          have hr : rest.length = 3 * k := by
            simp only [List.length_cons] at h
            omega
          show encode (b0 :: b1 :: b2 :: (rest ++ ys)) = encode (b0 :: b1 :: b2 :: rest) ++ encode ys
          simp only [encode, ih rest ys hr, List.cons_append]

theorem truncateID_length_le (s : String) : (truncateID s).length ≤ 32 := by
  unfold truncateID
  split
  · exact List.length_take_le 32 s.data
  · omega

/-- C8: the identifier generated by the key derivation of the thumbnail handler
has at most 32 characters, for every value of the random buffer (of any length)
and, more generally, for every encoded string handed to the truncation step. -/
theorem uniqueID_length_le_32 :
    (∀ bytes : Bytes, (uniqueID bytes).length ≤ 32) ∧
      (∀ encoded : String, (truncateID encoded).length ≤ 32) :=
  ⟨fun bytes => truncateID_length_le (EncodeToString bytes), truncateID_length_le⟩

theorem uniqueID_eq_of_length_32 (b : Bytes) (hb : b.length = 32) :
    uniqueID b = EncodeToString (b.take 24) ∧ (uniqueID b).length = 32 := by
  have hsplit : b = b.take 24 ++ b.drop 24 := (List.take_append_drop 24 b).symm
  have htake : (b.take 24).length = 3 * 8 := by simp [hb]
  have hdrop : (b.drop 24).length = 3 * 2 + 2 := by simp [hb]
  have henc : encode b = encode (b.take 24) ++ encode (b.drop 24) := by
    conv_lhs => rw [hsplit]
    exact encode_append_of_three_mul 8 _ _ htake
  have hlen24 : (encode (b.take 24)).length = 32 :=
    encode_length_of_three_mul 8 _ htake
  have hgt : (EncodeToString b).length > 32 := by
    have hd : (encode (b.drop 24)).length > 0 := by
      match hq : b.drop 24, hdrop with
      | b0 :: b1 :: b2 :: rest, _ => simp [encode]
    simp only [EncodeToString, String.length, henc, List.length_append, hlen24]
    omega
  have hu : uniqueID b = EncodeToString (b.take 24) := by
    unfold uniqueID truncateID
    rw [if_pos hgt]
    simp only [EncodeToString, henc]
    rw [List.take_append_of_le_length (by omega)]
    rw [List.take_of_length_le (by omega)]
  exact ⟨hu, by rw [hu]; simpa [EncodeToString, String.length] using hlen24⟩

/-- C10: for every 32-byte random value the identifier has exactly 32 characters
and is the unpadded URL-safe base64 encoding of the first 24 bytes, so a second
32-byte value with the same first 24 bytes gives the same identifier. -/
theorem uniqueID_depends_on_first_24_bytes (b b2 : Bytes) (hb : b.length = 32)
    (hb2 : b2.length = 32) (h24 : b2.take 24 = b.take 24) :
    (uniqueID b).length = 32 ∧
      uniqueID b = EncodeToString (b.take 24) ∧
      uniqueID b2 = uniqueID b := by
  obtain ⟨hu, hl⟩ := uniqueID_eq_of_length_32 b hb
  refine ⟨hl, hu, ?_⟩
  rw [(uniqueID_eq_of_length_32 b2 hb2).1, hu, h24]

theorem uniqueID_depends_on_first_24_bytes_witness :
    sampleBytes ≠ sampleBytes2 ∧
      (uniqueID sampleBytes).length = 32 ∧
      uniqueID sampleBytes = EncodeToString (sampleBytes.take 24) ∧
      uniqueID sampleBytes2 = uniqueID sampleBytes :=
  ⟨by decide,
    uniqueID_depends_on_first_24_bytes sampleBytes sampleBytes2 (by decide) (by decide)
      (by decide)⟩

/-! ### Credential, ownership and media type checks -/

/-- C3, as amended: a request whose path value is a UUID and whose bearer
credential is missing or rejected is answered with 401 by both handlers, with
the state left as it was and no mutating call made, whatever else the request
contains; and a request whose path value is not a UUID is answered with 400
"Invalid ID" by both handlers before the credential is looked at, whatever its
credential, again with the state left as it was. -/
theorem rejected_credential_no_mutation (cfg : apiConfig) (env : Env) (r : Request)
    (st : State) :
    (credentialRejected env r = true →
        (handlerUploadThumbnail cfg env r st).2 = st ∧
          (handlerUploadVideo cfg env r st).2 = st ∧
          (r.videoID ≠ none →
            (handlerUploadThumbnail cfg env r st).1.status = StatusUnauthorized ∧
              (handlerUploadVideo cfg env r st).1.status = StatusUnauthorized)) ∧
      (r.videoID = none →
        handlerUploadThumbnail cfg env r st = (.error StatusBadRequest "Invalid ID", st) ∧
          handlerUploadVideo cfg env r st = (.error StatusBadRequest "Invalid ID", st)) := by
  refine ⟨?_, ?_⟩
  · intro h
    cases hid : r.videoID with
    | none => simp [handlerUploadThumbnail, handlerUploadVideo, hid]
    | some vid =>
        cases htok : r.token with
        | none => simp [handlerUploadThumbnail, handlerUploadVideo, hid, htok, Response.status]
        | some tok =>
            cases hjwt : env.ValidateJWT tok with
            | none =>
                simp [handlerUploadThumbnail, handlerUploadVideo, hid, htok, hjwt,
                  Response.status]
            | some uid => simp [credentialRejected, htok, hjwt] at h
  · intro hid
    simp [handlerUploadThumbnail, handlerUploadVideo, hid]

theorem rejected_credential_no_mutation_witness :
    ((handlerUploadThumbnail exampleConfig exampleEnv
          { thumbnailRequest with token := none } exampleState).2 = exampleState ∧
        (handlerUploadVideo exampleConfig exampleEnv
          { thumbnailRequest with token := none } exampleState).2 = exampleState ∧
        (handlerUploadThumbnail exampleConfig exampleEnv
          { thumbnailRequest with token := none } exampleState).1.status
            = StatusUnauthorized ∧
        (handlerUploadVideo exampleConfig exampleEnv
          { thumbnailRequest with token := none } exampleState).1.status
            = StatusUnauthorized) ∧
      (handlerUploadThumbnail exampleConfig exampleEnv
          { thumbnailRequest with videoID := none } exampleState
            = (.error StatusBadRequest "Invalid ID", exampleState) ∧
        handlerUploadVideo exampleConfig exampleEnv
          { thumbnailRequest with videoID := none } exampleState
            = (.error StatusBadRequest "Invalid ID", exampleState)) :=
  have h1 := (rejected_credential_no_mutation exampleConfig exampleEnv
    { thumbnailRequest with token := none } exampleState).1 (by decide)
  have h2 := (rejected_credential_no_mutation exampleConfig exampleEnv
    { thumbnailRequest with videoID := none } exampleState).2 rfl
  ⟨⟨h1.1, h1.2.1, (h1.2.2 (by decide)).1, (h1.2.2 (by decide)).2⟩, h2⟩

/-- C3, as stated, fails: a request without credential whose path value is not
a UUID is answered with 400 "Invalid ID" by both handlers, not with 401. -/
theorem rejected_credential_malformed_id_gets_400 :
    credentialRejected exampleEnv malformedIDRequest = true ∧
      (handlerUploadThumbnail exampleConfig exampleEnv malformedIDRequest exampleState).1
        = .error StatusBadRequest "Invalid ID" ∧
      (handlerUploadVideo exampleConfig exampleEnv malformedIDRequest exampleState).1
        = .error StatusBadRequest "Invalid ID" ∧
      (handlerUploadThumbnail exampleConfig exampleEnv malformedIDRequest exampleState).1.status
        ≠ StatusUnauthorized ∧
      (handlerUploadVideo exampleConfig exampleEnv malformedIDRequest exampleState).1.status
        ≠ StatusUnauthorized := by
  decide

/-- C2, as amended: for a request that reaches the media type check (UUID path
value, valid credential, file part present; for the video handler also record
found, owned by the caller, size within the limit), a media type outside the
accepted set is answered with 415 and a Content-Type value that does not parse
with 400; in both cases the state is left as it was and no mutating call is
made. -/
theorem unsupported_media_type_no_mutation (cfg : apiConfig) (env : Env) (r : Request)
    (st : State) (vid uid : UUID) (tok : String) (file : FormFile)
    (hid : r.videoID = some vid) (htok : r.token = some tok)
    (hjwt : env.ValidateJWT tok = some uid) (hfile : r.formFile = some file) :
    (∀ mediaType : String, file.mediaType = some mediaType →
        mediaType ≠ "image/jpeg" → mediaType ≠ "image/png" →
        handlerUploadThumbnail cfg env r st
          = (.error StatusUnsupportedMediaType "Unsupported media type", st)) ∧
      (file.mediaType = none →
        handlerUploadThumbnail cfg env r st
          = (.error StatusBadRequest "Invalid media type", st)) ∧
      (∀ video : Video, GetVideo st vid = some video → video.UserID = uid →
        file.Size ≤ uploadLimit →
        (∀ mimeType : String, file.mediaType = some mimeType → mimeType ≠ "video/mp4" →
          handlerUploadVideo cfg env r st
            = (.error StatusUnsupportedMediaType "Unsupported media type", st)) ∧
        (file.mediaType = none →
          handlerUploadVideo cfg env r st
            = (.error StatusBadRequest "Invalid media type", st))) := by
  refine ⟨?_, ?_, ?_⟩
  · intro mt hmt h1 h2
    simp [handlerUploadThumbnail, hid, htok, hjwt, hfile, hmt, h1, h2]
  · intro hmt
    simp [handlerUploadThumbnail, hid, htok, hjwt, hfile, hmt]
  · intro video hget hown hsize
    have hsz : ¬ file.Size > uploadLimit := not_lt.mpr hsize
    refine ⟨?_, ?_⟩
    · intro mt hmt h1
      simp [handlerUploadVideo, hid, htok, hjwt, hfile, hmt, h1, hget, hown, hsz]
    · intro hmt
      simp [handlerUploadVideo, hid, htok, hjwt, hfile, hmt, hget, hown, hsz]

theorem unsupported_media_type_no_mutation_witness :
    handlerUploadThumbnail exampleConfig exampleEnv gifThumbnailRequest exampleState
        = (.error StatusUnsupportedMediaType "Unsupported media type", exampleState) ∧
      handlerUploadVideo exampleConfig exampleEnv gifThumbnailRequest exampleState
        = (.error StatusUnsupportedMediaType "Unsupported media type", exampleState) :=
  have h := unsupported_media_type_no_mutation exampleConfig exampleEnv gifThumbnailRequest
    exampleState 10 1 "alice-token"
    { content := [9, 8, 7], Size := 3, mediaType := some "image/gif" }
    (by decide) (by decide) (by decide) rfl
  ⟨h.1 "image/gif" rfl (by decide) (by decide),
    (h.2.2 exampleVideo (by decide) (by decide) (by decide)).1 "image/gif" rfl (by decide)⟩

/-- C2, as stated, fails: a file part whose Content-Type value does not parse
(the empty value among them) is answered with 400 "Invalid media type" by both
handlers, not with 415. -/
theorem unparseable_media_type_gets_400 :
    (handlerUploadThumbnail exampleConfig exampleEnv unparseableTypeThumbnailRequest
        exampleState).1 = .error StatusBadRequest "Invalid media type" ∧
      (handlerUploadVideo exampleConfig exampleEnv unparseableTypeVideoRequest
        exampleState).1 = .error StatusBadRequest "Invalid media type" ∧
      (handlerUploadThumbnail exampleConfig exampleEnv unparseableTypeThumbnailRequest
        exampleState).1.status ≠ StatusUnsupportedMediaType ∧
      (handlerUploadVideo exampleConfig exampleEnv unparseableTypeVideoRequest
        exampleState).1.status ≠ StatusUnsupportedMediaType := by
  decide

/-! ### The stored thumbnail URL -/

theorem lastIndexFrom_isSome_of_infix (sep : List Char) :
    ∀ (s : List Char) (i : Nat), sep <:+: s → (lastIndexFrom sep s i).isSome = true := by
  intro s
  induction s with
  | nil =>
      intro i h
      have : sep = [] := List.infix_nil.mp h
      simp [lastIndexFrom, this]
  | cons c cs ih =>
      intro i h
      unfold lastIndexFrom
      cases hrec : lastIndexFrom sep cs (i + 1) with
      | some j => simp
      | none =>
          rcases List.infix_cons_iff.mp h with hpre | hin
          · have htake : (c :: cs).take sep.length = sep := (List.prefix_iff_eq_take.mp hpre).symm
            simp [htake]
          · have := ih (i + 1) hin
            simp [hrec] at this

theorem lastIndexFrom_eq_none_of_not_infix (sep : List Char) :
    ∀ (s : List Char) (i : Nat), ¬ sep <:+: s → lastIndexFrom sep s i = none := by
  intro s
  induction s with
  | nil =>
      intro i h
      have hne : sep ≠ [] := fun he => h (he ▸ List.infix_refl _)
      simp [lastIndexFrom, hne]
  | cons c cs ih =>
      intro i h
      have hcs : ¬ sep <:+: cs := fun hin => h (List.infix_cons_iff.mpr (Or.inr hin))
      have htake : (c :: cs).take sep.length ≠ sep := by
        intro ht
        exact h (List.infix_cons_iff.mpr (Or.inl (List.prefix_iff_eq_take.mpr ht.symm)))
      unfold lastIndexFrom
      rw [ih (i + 1) hcs]
      simp [htake]

/-- The search finds the last occurrence: when `s` is `pre ++ sep ++ suf` and
`sep` does not start again anywhere after that occurrence, the result is the
length of `pre`. -/
theorem lastIndexFrom_append (sep suf : List Char) (hsep : sep ≠ [])
    (hlast : ¬ sep <:+: (sep ++ suf).tail) :
    ∀ (pre : List Char) (i : Nat),
      lastIndexFrom sep (pre ++ (sep ++ suf)) i = some (i + pre.length) := by
  intro pre
  induction pre with
  | nil =>
      intro i
      match hs : sep, hsep with
      | c :: sep1, _ =>
          have hrest : lastIndexFrom (c :: sep1) (sep1 ++ suf) (i + 1) = none := by
            apply lastIndexFrom_eq_none_of_not_infix
            simpa [hs] using hlast
          show lastIndexFrom (c :: sep1) (c :: (sep1 ++ suf)) i = some (i + 0)
          unfold lastIndexFrom
          rw [hrest]
          simp
  | cons a pre1 ih =>
      intro i
      show lastIndexFrom sep (a :: (pre1 ++ (sep ++ suf))) i = some (i + (pre1.length + 1))
      unfold lastIndexFrom
      rw [ih (i + 1)]
      simp only [Option.some.injEq]
      omega

/-- The asset path cut out of a URL is the text after the last "/assets/". -/
theorem oldAssetPath_of_split (pre oldPath : String)
    (hlast : ¬ "/assets/".data <:+: ("/assets/" ++ oldPath).data.tail) :
    oldAssetPath (pre ++ "/assets/" ++ oldPath) = some oldPath := by
  have hidx : LastIndex (pre ++ "/assets/" ++ oldPath) "/assets/" = some pre.data.length := by
    unfold LastIndex
    have h := lastIndexFrom_append "/assets/".data oldPath.data (by decide)
      (by simpa using hlast) pre.data 0
    simpa [List.append_assoc] using h
  unfold oldAssetPath
  rw [hidx]
  simp only [String.data_append, List.append_assoc, String.length]
  rw [← List.append_assoc, List.drop_left' (by simp)]

theorem assets_url_ne_empty (pre oldPath : String) : pre ++ "/assets/" ++ oldPath ≠ "" := by
  intro he
  have h := congrArg String.length he
  rw [String.length_append, String.length_append] at h
  have h8 : "/assets/".length = 8 := by decide
  have h0 : "".length = 0 := rfl
  omega

theorem oldAssetPath_isSome_of_contains (url : String)
    (h : "/assets/".data <:+: url.data) : ∃ oldPath, oldAssetPath url = some oldPath := by
  have hsome := lastIndexFrom_isSome_of_infix "/assets/".data url.data 0 h
  unfold oldAssetPath LastIndex
  cases hidx : lastIndexFrom "/assets/".data url.data 0 with
  | none => simp [hidx] at hsome
  | some idx => exact ⟨_, rfl⟩

theorem removeOldThumbnail_videos (cfg : apiConfig) (env : Env) (video : Video)
    (assetDiskPath : String) (st : State) :
    (removeOldThumbnail cfg env video assetDiskPath st).videos = st.videos := by
  unfold removeOldThumbnail
  split
  · rfl
  · split
    · split
      · rfl
      · simp only []
        split <;> rfl
    · rfl

theorem removeOldThumbnail_calls (cfg : apiConfig) (env : Env) (video : Video)
    (assetDiskPath : String) (st : State) (c : Call)
    (h : c ∈ (removeOldThumbnail cfg env video assetDiskPath st).calls) :
    c ∈ st.calls ∨ ∃ path, c = Call.remove path := by
  unfold removeOldThumbnail at h
  split at h
  · exact Or.inl h
  · split at h
    · split at h
      · exact Or.inl h
      · simp only [] at h
        split at h
        · simp only [osRemove, List.mem_append, List.mem_singleton] at h
          rcases h with h | h
          · exact Or.inl h
          · exact Or.inr ⟨_, h⟩
        · exact Or.inl h
    · exact Or.inl h

theorem removeOldThumbnail_eq (cfg : apiConfig) (env : Env) (video : Video)
    (assetDiskPath url oldPath : String) (st : State)
    (hurl : video.ThumbnailURL = some url) (hne : url ≠ "")
    (hold : oldAssetPath url = some oldPath)
    (hdiff : cfg.getAssetDiskPath oldPath ≠ assetDiskPath) :
    removeOldThumbnail cfg env video assetDiskPath st
      = osRemove env (cfg.getAssetDiskPath oldPath) st := by
  simp [removeOldThumbnail, hurl, hne, hold, hdiff]

/-! ### Storing the thumbnail -/

theorem handlerUploadThumbnail_reaches_store (cfg : apiConfig) (env : Env) (r : Request)
    (st : State) (vid uid : UUID) (tok : String) (file : FormFile) (mt : String)
    (video : Video)
    (hid : r.videoID = some vid) (htok : r.token = some tok)
    (hjwt : env.ValidateJWT tok = some uid) (hfile : r.formFile = some file)
    (hmt : file.mediaType = some mt) (hacc : mt = "image/jpeg" ∨ mt = "image/png")
    (hget : GetVideo st vid = some video) (hown : video.UserID = uid) :
    handlerUploadThumbnail cfg env r st = storeThumbnail cfg env file mt video st := by
  have hacc2 : ¬ (mt ≠ "image/jpeg" ∧ mt ≠ "image/png") := by
    rcases hacc with h | h <;> simp [h]
  simp [handlerUploadThumbnail, hid, htok, hjwt, hfile, hmt, hacc2, hget, hown]

/-- Whenever the new asset file cannot be created or the copy into it fails,
the thumbnail handler answers with 500, does not call `UpdateVideo` and leaves
the record store as it was; the removal of the previously referenced file has
run by then, so that file is gone when the removal succeeded and is unchanged
only when the removal failed. -/
theorem thumbnail_write_failure_after_old_removal (cfg : apiConfig) (env : Env)
    (r : Request) (st : State) (vid uid : UUID) (tok : String) (file : FormFile)
    (mt : String) (video : Video)
    (hid : r.videoID = some vid) (htok : r.token = some tok)
    (hjwt : env.ValidateJWT tok = some uid) (hfile : r.formFile = some file)
    (hmt : file.mediaType = some mt) (hacc : mt = "image/jpeg" ∨ mt = "image/png")
    (hget : GetVideo st vid = some video) (hown : video.UserID = uid)
    (hrand : env.randErr = false) (hn : env.randN = 32)
    (hfail : env.createFails = true ∨ env.copyFails ≠ none) :
    (handlerUploadThumbnail cfg env r st).1.status = StatusInternalServerError ∧
      (handlerUploadThumbnail cfg env r st).2.videos = st.videos ∧
      (∀ v : Video, Call.updateVideo v ∈ (handlerUploadThumbnail cfg env r st).2.calls →
        Call.updateVideo v ∈ st.calls) ∧
      (∀ pre oldPath : String,
        video.ThumbnailURL = some (pre ++ "/assets/" ++ oldPath) →
        ¬ "/assets/".data <:+: ("/assets/" ++ oldPath).data.tail →
        env.resolve (cfg.getAssetDiskPath oldPath)
          ≠ env.resolve
              (cfg.getAssetDiskPath (cfg.getAssetPath [uniqueID env.randBytes, mt])) →
        (env.removeFails (cfg.getAssetDiskPath oldPath) = false →
          (handlerUploadThumbnail cfg env r st).2.files
              (env.resolve (cfg.getAssetDiskPath oldPath)) = none) ∧
        (env.removeFails (cfg.getAssetDiskPath oldPath) = true →
          (handlerUploadThumbnail cfg env r st).2.files
              (env.resolve (cfg.getAssetDiskPath oldPath))
            = st.files (env.resolve (cfg.getAssetDiskPath oldPath)))) := by
  rw [handlerUploadThumbnail_reaches_store cfg env r st vid uid tok file mt video
    hid htok hjwt hfile hmt hacc hget hown]
  have hcalls : ∀ (v : Video) (p : String) (st0 : State),
      Call.updateVideo v
          ∈ (removeOldThumbnail cfg env video p st0).calls →
        Call.updateVideo v ∈ st0.calls := by
    intro v p st0 h
    rcases removeOldThumbnail_calls cfg env video p st0 _ h with h | ⟨q, h⟩
    · exact h
    · cases h
  have hold : ∀ pre oldPath : String,
      video.ThumbnailURL = some (pre ++ "/assets/" ++ oldPath) →
      ¬ "/assets/".data <:+: ("/assets/" ++ oldPath).data.tail →
      env.resolve (cfg.getAssetDiskPath oldPath)
        ≠ env.resolve
            (cfg.getAssetDiskPath (cfg.getAssetPath [uniqueID env.randBytes, mt])) →
      removeOldThumbnail cfg env video
          (cfg.getAssetDiskPath (cfg.getAssetPath [uniqueID env.randBytes, mt])) st
        = osRemove env (cfg.getAssetDiskPath oldPath) st := by
    intro pre oldPath hurl hlast hdiff
    have hne : pre ++ "/assets/" ++ oldPath ≠ "" := assets_url_ne_empty pre oldPath
    exact removeOldThumbnail_eq cfg env video _ _ oldPath st hurl hne
      (oldAssetPath_of_split pre oldPath hlast) (fun he => hdiff (congrArg env.resolve he))
  by_cases hc : env.createFails = true
  · have hstore : storeThumbnail cfg env file mt video st
        = (.error StatusInternalServerError "Unable to create file",
            (removeOldThumbnail cfg env video
              (cfg.getAssetDiskPath (cfg.getAssetPath [uniqueID env.randBytes, mt])) st).log
              (Call.create
                (cfg.getAssetDiskPath (cfg.getAssetPath [uniqueID env.randBytes, mt])))) := by
      simp [storeThumbnail, hrand, hn, osCreate, hc]
    rw [hstore]
    refine ⟨rfl, ?_, ?_, ?_⟩
    · simp [State.log, removeOldThumbnail_videos]
    · intro v h
      simp only [State.log, List.mem_append, List.mem_singleton] at h
      rcases h with h | h
      · exact hcalls v _ st h
      · cases h
    · intro pre oldPath hurl hlast hdiff
      simp only [State.log]
      rw [hold pre oldPath hurl hlast hdiff]
      constructor
      · intro hrm
        simp [osRemove, hrm, setAt]
      · intro hrm
        simp [osRemove, hrm]
  · have hc2 : env.createFails = false := by simpa using hc
    have hcopy : env.copyFails ≠ none := by
      rcases hfail with h | h
      · exact absurd h hc
      · exact h
    obtain ⟨n, hn2⟩ : ∃ n, env.copyFails = some n := by
      cases hcf : env.copyFails with
      | none => exact absurd hcf hcopy
      | some n => exact ⟨n, rfl⟩
    have hstore : storeThumbnail cfg env file mt video st
        = (.error StatusInternalServerError "Unable to copy file",
            { (removeOldThumbnail cfg env video
                (cfg.getAssetDiskPath (cfg.getAssetPath [uniqueID env.randBytes, mt])) st) with
              files := setAt
                (setAt (removeOldThumbnail cfg env video
                    (cfg.getAssetDiskPath (cfg.getAssetPath [uniqueID env.randBytes, mt]))
                    st).files
                  (env.resolve
                    (cfg.getAssetDiskPath (cfg.getAssetPath [uniqueID env.randBytes, mt])))
                  (some []))
                (env.resolve
                  (cfg.getAssetDiskPath (cfg.getAssetPath [uniqueID env.randBytes, mt])))
                (some (file.content.take n))
              calls := (removeOldThumbnail cfg env video
                  (cfg.getAssetDiskPath (cfg.getAssetPath [uniqueID env.randBytes, mt]))
                  st).calls
                ++ [Call.create
                    (cfg.getAssetDiskPath (cfg.getAssetPath [uniqueID env.randBytes, mt]))]
                ++ [Call.copy
                    (cfg.getAssetDiskPath
                      (cfg.getAssetPath [uniqueID env.randBytes, mt]))] }) := by
      simp [storeThumbnail, hrand, hn, osCreate, hc2, ioCopy, hn2]
    rw [hstore]
    refine ⟨rfl, ?_, ?_, ?_⟩
    · simp [removeOldThumbnail_videos]
    · intro v h
      simp only [List.mem_append, List.mem_singleton] at h
      rcases h with (h | h) | h
      · exact hcalls v _ st h
      · cases h
      · cases h
    · intro pre oldPath hurl hlast hdiff
      rw [hold pre oldPath hurl hlast hdiff]
      constructor
      · intro hrm
        simp [osRemove, hrm, setAt, hdiff]
      · intro hrm
        simp [osRemove, hrm, setAt, hdiff]

/-- C5, the code at the failing input: when `os.Create` fails for an upload on a
record whose thumbnail file exists, the handler answers with 500 and the record
keeps its locator, but the file that locator refers to has already been removed:
the removal of the old file (lines 84-94) runs before the new file is created
(line 96). -/
theorem thumbnail_create_failure_loses_old_file :
    (GetVideo exampleState 10).map Video.ThumbnailURL
        = some (some "http://localhost:8091/assets/old.png") ∧
      exampleState.files "assets/old.png" = some [1, 2, 3] ∧
      (handlerUploadThumbnail exampleConfig createFailsEnv thumbnailRequest exampleState).1
        = .error StatusInternalServerError "Unable to create file" ∧
      ((handlerUploadThumbnail exampleConfig createFailsEnv thumbnailRequest
          exampleState).2.videos 10).map Video.ThumbnailURL
        = some (some "http://localhost:8091/assets/old.png") ∧
      (handlerUploadThumbnail exampleConfig createFailsEnv thumbnailRequest
          exampleState).2.files "assets/old.png" = none := by
  decide

theorem handlerUploadThumbnail_ok_inv (cfg : apiConfig) (env : Env) (r : Request)
    (st : State) (hok : (handlerUploadThumbnail cfg env r st).1.status = StatusOK) :
    ∃ (vid uid : UUID) (tok : String) (file : FormFile) (mt : String) (video : Video),
      r.videoID = some vid ∧ r.token = some tok ∧ env.ValidateJWT tok = some uid ∧
        r.formFile = some file ∧ file.mediaType = some mt ∧
        (mt = "image/jpeg" ∨ mt = "image/png") ∧ GetVideo st vid = some video ∧
        video.UserID = uid ∧ env.randErr = false ∧ env.randN = 32 ∧
        env.createFails = false ∧ env.copyFails = none := by
  cases hid : r.videoID with
  | none => simp [handlerUploadThumbnail, hid, Response.status] at hok
  | some vid =>
  cases htok : r.token with
  | none => simp [handlerUploadThumbnail, hid, htok, Response.status] at hok
  | some tok =>
  cases hjwt : env.ValidateJWT tok with
  | none => simp [handlerUploadThumbnail, hid, htok, hjwt, Response.status] at hok
  | some uid =>
  cases hfile : r.formFile with
  | none => simp [handlerUploadThumbnail, hid, htok, hjwt, hfile, Response.status] at hok
  | some file =>
  cases hmt : file.mediaType with
  | none => simp [handlerUploadThumbnail, hid, htok, hjwt, hfile, hmt, Response.status] at hok
  | some mt =>
  by_cases hacc : mt ≠ "image/jpeg" ∧ mt ≠ "image/png"
  · simp [handlerUploadThumbnail, hid, htok, hjwt, hfile, hmt, hacc, Response.status] at hok
  · have hacc2 : mt = "image/jpeg" ∨ mt = "image/png" := by
      by_cases h1 : mt = "image/jpeg"
      · exact Or.inl h1
      · by_cases h2 : mt = "image/png"
        · exact Or.inr h2
        · exact absurd ⟨h1, h2⟩ hacc
    cases hget : GetVideo st vid with
    | none =>
        simp [handlerUploadThumbnail, hid, htok, hjwt, hfile, hmt, hacc, hget,
          Response.status] at hok
    | some video =>
    by_cases hown : video.UserID = uid
    · rw [handlerUploadThumbnail_reaches_store cfg env r st vid uid tok file mt video
        hid htok hjwt hfile hmt hacc2 hget hown] at hok
      have hrand : env.randErr = false ∧ env.randN = 32 := by
        by_cases hr : env.randErr = true
        · simp [storeThumbnail, hr, Response.status] at hok
        · by_cases hn : env.randN = 32
          · exact ⟨by simpa using hr, hn⟩
          · simp [storeThumbnail, hn, Response.status] at hok
      have hcreate : env.createFails = false := by
        by_cases hc : env.createFails = true
        · simp [storeThumbnail, hrand.1, hrand.2, osCreate, hc, Response.status] at hok
        · simpa using hc
      have hcopy : env.copyFails = none := by
        cases hcf : env.copyFails with
        | none => rfl
        | some n =>
            simp [storeThumbnail, hrand.1, hrand.2, osCreate, hcreate, ioCopy, hcf,
              Response.status] at hok
      exact ⟨vid, uid, tok, file, mt, video, rfl, rfl, hjwt, rfl, hmt, hacc2, hget, hown,
        hrand.1, hrand.2, hcreate, hcopy⟩
    · simp [handlerUploadThumbnail, hid, htok, hjwt, hfile, hmt, hacc, hget, hown,
        Response.status] at hok

/-- In a run of the thumbnail handler answered with 200 in which the update was
persisted, on a record whose locator ends in "/assets/" followed by `oldPath`:
when the old file is another file than the new one and its removal succeeds,
afterwards the old file is absent, the new file holds the uploaded bytes and the
stored record carries the public URL of the new asset path. -/
theorem thumbnail_replacement (cfg : apiConfig) (env : Env) (r : Request) (st : State)
    (vid : UUID) (file : FormFile) (mt : String) (video : Video) (pre oldPath : String)
    (hok : (handlerUploadThumbnail cfg env r st).1.status = StatusOK)
    (hupd : env.updateVideoFails = false)
    (hid : r.videoID = some vid) (hfile : r.formFile = some file)
    (hmt : file.mediaType = some mt) (hget : GetVideo st vid = some video)
    (hurl : video.ThumbnailURL = some (pre ++ "/assets/" ++ oldPath))
    (hlast : ¬ "/assets/".data <:+: ("/assets/" ++ oldPath).data.tail)
    (hdiff : env.resolve (cfg.getAssetDiskPath oldPath)
      ≠ env.resolve (cfg.getAssetDiskPath (cfg.getAssetPath [uniqueID env.randBytes, mt])))
    (hrm : env.removeFails (cfg.getAssetDiskPath oldPath) = false) :
    (handlerUploadThumbnail cfg env r st).2.files
          (env.resolve (cfg.getAssetDiskPath oldPath)) = none ∧
      (handlerUploadThumbnail cfg env r st).2.files
          (env.resolve (cfg.getAssetDiskPath (cfg.getAssetPath [uniqueID env.randBytes, mt])))
        = some file.content ∧
      (handlerUploadThumbnail cfg env r st).2.videos video.ID
        = some { video with
            ThumbnailURL :=
              some (cfg.getAssetURL (cfg.getAssetPath [uniqueID env.randBytes, mt])) } ∧
      (handlerUploadThumbnail cfg env r st).1
        = .json StatusOK
            { ID := video.ID, UserID := 0,
              ThumbnailURL :=
                some (cfg.getAssetURL (cfg.getAssetPath [uniqueID env.randBytes, mt])),
              CreatedAt := video.CreatedAt, UpdatedAt := video.UpdatedAt,
              VideoURL := video.VideoURL } := by
  obtain ⟨vid2, uid, tok, file2, mt2, video2, hid2, htok, hjwt, hfile2, hmt2, hacc, hget2,
    hown, hrand, hn, hcreate, hcopy⟩ := handlerUploadThumbnail_ok_inv cfg env r st hok
  have e1 : vid2 = vid := by rw [hid] at hid2; exact (Option.some.inj hid2).symm
  subst e1
  have e2 : file2 = file := by rw [hfile] at hfile2; exact (Option.some.inj hfile2).symm
  subst e2
  have e3 : mt2 = mt := by rw [hmt] at hmt2; exact (Option.some.inj hmt2).symm
  subst e3
  have e4 : video2 = video := by rw [hget] at hget2; exact (Option.some.inj hget2).symm
  subst e4
  have hne : pre ++ "/assets/" ++ oldPath ≠ "" := assets_url_ne_empty pre oldPath
  have hrem := removeOldThumbnail_eq cfg env video2
    (cfg.getAssetDiskPath (cfg.getAssetPath [uniqueID env.randBytes, mt2])) _ oldPath st hurl hne
    (oldAssetPath_of_split pre oldPath hlast) (fun he => hdiff (congrArg env.resolve he))
  rw [handlerUploadThumbnail_reaches_store cfg env r st vid2 uid tok file2 mt2 video2
    hid htok hjwt hfile hmt hacc hget hown]
  simp only [storeThumbnail, hrand, hn, osCreate, hcreate, ioCopy, hcopy, UpdateVideo, hupd,
    hrem]
  simp [osRemove, hrm, setAt, hdiff]

/-- C7, the code at the failing input: a run of the thumbnail handler on record
10, whose locator ends in "/assets/old.png", in which `cfg.db.UpdateVideo`
returns an error. The handler answers 200, the old file is absent and the new
file holds the uploaded bytes, but the stored record still carries the old
locator, not the public URL of the new asset path. -/
theorem thumbnail_replacement_not_persisted :
    (GetVideo exampleState 10).map Video.ThumbnailURL
        = some (some "http://localhost:8091/assets/old.png") ∧
      oldAssetPath "http://localhost:8091/assets/old.png" = some "old.png" ∧
      exampleConfig.getAssetDiskPath "old.png" = "assets/old.png" ∧
      exampleConfig.getAssetDiskPath
          (exampleConfig.getAssetPath [uniqueID updateFailsEnv.randBytes, "image/png"])
        = "assets/AAECAwQFBgcICQoLDA0ODxAREhMUFRYX.png" ∧
      exampleConfig.getAssetURL
          (exampleConfig.getAssetPath [uniqueID updateFailsEnv.randBytes, "image/png"])
        = "http://localhost:8091/assets/AAECAwQFBgcICQoLDA0ODxAREhMUFRYX.png" ∧
      updateFailsEnv.removeFails "assets/old.png" = false ∧
      exampleState.files "assets/old.png" = some [1, 2, 3] ∧
      (handlerUploadThumbnail exampleConfig updateFailsEnv thumbnailRequest
          exampleState).1.status = StatusOK ∧
      (handlerUploadThumbnail exampleConfig updateFailsEnv thumbnailRequest
          exampleState).2.files "assets/old.png" = none ∧
      (handlerUploadThumbnail exampleConfig updateFailsEnv thumbnailRequest
          exampleState).2.files "assets/AAECAwQFBgcICQoLDA0ODxAREhMUFRYX.png"
        = some [9, 8, 7] ∧
      ((handlerUploadThumbnail exampleConfig updateFailsEnv thumbnailRequest
          exampleState).2.videos 10).map Video.ThumbnailURL
        = some (some "http://localhost:8091/assets/old.png") ∧
      ((handlerUploadThumbnail exampleConfig updateFailsEnv thumbnailRequest
          exampleState).2.videos 10).map Video.ThumbnailURL
        ≠ some (some "http://localhost:8091/assets/AAECAwQFBgcICQoLDA0ODxAREhMUFRYX.png") := by
  decide

/-- C6, the code at the failing input: when `cfg.db.UpdateVideo` returns an
error, the thumbnail handler still answers 200 with the new locator while the
stored record keeps the old one; the video handler answers 500 in the same
situation. The answer of the thumbnail handler never depends on whether the
update succeeded. -/
theorem thumbnail_update_failure_answers_200 :
    (handlerUploadThumbnail exampleConfig updateFailsEnv thumbnailRequest exampleState).1
        = .json StatusOK
            { ID := 10, UserID := 0,
              ThumbnailURL :=
                some "http://localhost:8091/assets/AAECAwQFBgcICQoLDA0ODxAREhMUFRYX.png",
              VideoURL := none, CreatedAt := 100, UpdatedAt := 100 } ∧
      (handlerUploadThumbnail exampleConfig updateFailsEnv thumbnailRequest
          exampleState).2.videos 10 = some exampleVideo ∧
      (handlerUploadVideo exampleConfig updateFailsEnv videoRequest exampleState).1
        = .error StatusInternalServerError "Failed to update video in database" ∧
      (∀ (cfg : apiConfig) (env : Env) (r : Request) (st : State),
        (handlerUploadThumbnail cfg { env with updateVideoFails := true } r st).1
          = (handlerUploadThumbnail cfg { env with updateVideoFails := false } r st).1) := by
  refine ⟨by decide, by decide, by decide, ?_⟩
  intro cfg env r st
  have hstore : ∀ (file : FormFile) (mt : String) (video : Video),
      (storeThumbnail cfg { env with updateVideoFails := true } file mt video st).1
        = (storeThumbnail cfg { env with updateVideoFails := false } file mt video st).1 := by
    intro file mt video
    by_cases hr : env.randErr = true
    · simp [storeThumbnail, hr]
    · by_cases hn : env.randN = 32
      · by_cases hc : env.createFails = true
        · simp [storeThumbnail, hr, hn, osCreate, hc]
        · cases hcf : env.copyFails with
          | none => simp [storeThumbnail, hr, hn, osCreate, hc, ioCopy, hcf]
          | some n => simp [storeThumbnail, hr, hn, osCreate, hc, ioCopy, hcf]
      · simp [storeThumbnail, hn]
  cases hid : r.videoID with
  | none => simp [handlerUploadThumbnail, hid]
  | some vid =>
  cases htok : r.token with
  | none => simp [handlerUploadThumbnail, hid, htok]
  | some tok =>
  cases hjwt : env.ValidateJWT tok with
  | none => simp [handlerUploadThumbnail, hid, htok, hjwt]
  | some uid =>
  cases hfile : r.formFile with
  | none => simp [handlerUploadThumbnail, hid, htok, hjwt, hfile]
  | some file =>
  cases hmt : file.mediaType with
  | none => simp [handlerUploadThumbnail, hid, htok, hjwt, hfile, hmt]
  | some mt =>
  by_cases hacc : mt ≠ "image/jpeg" ∧ mt ≠ "image/png"
  · simp [handlerUploadThumbnail, hid, htok, hjwt, hfile, hmt, hacc]
  · cases hget : GetVideo st vid with
    | none => simp [handlerUploadThumbnail, hid, htok, hjwt, hfile, hmt, hacc, hget]
    | some video =>
        by_cases hown : video.UserID = uid
        · have h := hstore file mt video
          simpa [handlerUploadThumbnail, hid, htok, hjwt, hfile, hmt, hacc, hget, hown]
            using h
        · simp [handlerUploadThumbnail, hid, htok, hjwt, hfile, hmt, hacc, hget, hown]

/-! ### The video handler -/

theorem folderFor_cases (aspectRatio : String) :
    folderFor aspectRatio = "landscape" ∨ folderFor aspectRatio = "portrait" ∨
      folderFor aspectRatio = "other" := by
  unfold folderFor
  split
  · exact Or.inl rfl
  · split
    · exact Or.inr (Or.inl rfl)
    · exact Or.inr (Or.inr rfl)

theorem folderFor_default (aspectRatio : String) (h1 : aspectRatio ≠ "16:9")
    (h2 : aspectRatio ≠ "9:16") : folderFor aspectRatio = "other" := by
  simp [folderFor, h1, h2]

theorem uploadProcessed_putObject_key (cfg : apiConfig) (env : Env) (video : Video)
    (mimeType folder processedFilePath : String) (st : State) (key : String)
    (h : Call.putObject key
      ∈ (uploadProcessed cfg env video mimeType folder processedFilePath st).2.calls) :
    Call.putObject key ∈ st.calls ∨ key = folder ++ "/" ++ cfg.getAssetPath [mimeType] := by
  unfold uploadProcessed at h
  cases hopen : osOpen env processedFilePath st with
  | none =>
      simp only [hopen] at h
      exact Or.inl h
  | some body =>
      simp only [hopen] at h
      by_cases hrand : (env.randErr || env.randN != 32) = true
      · simp only [hrand, if_true] at h
        exact Or.inl h
      · simp only [hrand] at h
        by_cases hput : env.putObjectFails = true
        · simp [PutObject, hput, State.log] at h
          rcases h with h | h
          · exact Or.inl h
          · exact Or.inr h
        · by_cases hupd : env.updateVideoFails = true
          · simp [PutObject, hput, UpdateVideo, hupd, State.log] at h
            rcases h with h | h
            · exact Or.inl h
            · exact Or.inr h
          · simp [PutObject, hput, UpdateVideo, hupd] at h
            rcases h with h | h
            · exact Or.inl h
            · exact Or.inr h

theorem processStaged_putObject_key (cfg : apiConfig) (env : Env) (file : FormFile)
    (video : Video) (mimeType tempName : String) (st : State) (key : String)
    (h : Call.putObject key
      ∈ (processStaged cfg env file video mimeType tempName st).2.calls) :
    Call.putObject key ∈ st.calls ∨
      ∃ aspectRatio, env.getVideoAspectRatio tempName = some aspectRatio ∧
        key = folderFor aspectRatio ++ "/" ++ cfg.getAssetPath [mimeType] := by
  have hcopy : ∀ k, Call.putObject k ∈ (ioCopy env tempName file.content st).2.calls →
      Call.putObject k ∈ st.calls := by
    intro k hk
    unfold ioCopy at hk
    cases hcf : env.copyFails with
    | none => simpa [hcf] using hk
    | some n => simpa [hcf] using hk
  have hproc : ∀ (k : String) (st0 : State),
      Call.putObject k ∈ (processVideoForFastStart env tempName st0).2.calls →
        Call.putObject k ∈ st0.calls := by
    intro k st0 hk
    unfold processVideoForFastStart at hk
    cases hp : env.processVideoForFastStart with
    | ok outputPath output => simpa [hp] using hk
    | failed left =>
        cases left with
        | none => simpa [hp, State.log] using hk
        | some pw => simpa [hp] using hk
  unfold processStaged at h
  cases hasp : env.getVideoAspectRatio tempName with
  | none =>
      simp only [hasp] at h
      exact Or.inl (hcopy key h)
  | some aspectRatio =>
      simp only [hasp] at h
      cases hp : processVideoForFastStart env tempName (ioCopy env tempName file.content st).2 with
      | mk res st2 =>
          have hst2 : ∀ k, Call.putObject k ∈ st2.calls → Call.putObject k ∈ st.calls := by
            intro k hk
            have := hproc k (ioCopy env tempName file.content st).2
            rw [hp] at this
            exact hcopy k (this hk)
          rw [hp] at h
          cases res with
          | none =>
              simp only [] at h
              exact Or.inl (hst2 key h)
          | some processedFilePath =>
              simp only [osRemove, List.mem_append, List.mem_singleton] at h
              rcases h with h | h
              · rcases uploadProcessed_putObject_key cfg env video mimeType _ _ st2 key h
                  with h1 | h1
                · exact Or.inl (hst2 key h1)
                · exact Or.inr ⟨aspectRatio, rfl, h1⟩
              · cases h

theorem handlerUploadVideo_putObject_key (cfg : apiConfig) (env : Env) (r : Request)
    (st : State) (key : String)
    (h : Call.putObject key ∈ (handlerUploadVideo cfg env r st).2.calls) :
    Call.putObject key ∈ st.calls ∨
      ∃ tempName aspectRatio, env.createTemp = some tempName ∧
        env.getVideoAspectRatio tempName = some aspectRatio ∧
        key = folderFor aspectRatio ++ "/" ++ cfg.getAssetPath ["video/mp4"] := by
  cases hid : r.videoID with
  | none => exact Or.inl (by simpa [handlerUploadVideo, hid] using h)
  | some vid =>
  cases htok : r.token with
  | none => exact Or.inl (by simpa [handlerUploadVideo, hid, htok] using h)
  | some tok =>
  cases hjwt : env.ValidateJWT tok with
  | none => exact Or.inl (by simpa [handlerUploadVideo, hid, htok, hjwt] using h)
  | some uid =>
  cases hget : GetVideo st vid with
  | none => exact Or.inl (by simpa [handlerUploadVideo, hid, htok, hjwt, hget] using h)
  | some video =>
  by_cases hown : video.UserID = uid
  swap
  · exact Or.inl (by simpa [handlerUploadVideo, hid, htok, hjwt, hget, hown] using h)
  cases hfile : r.formFile with
  | none => exact Or.inl (by simpa [handlerUploadVideo, hid, htok, hjwt, hget, hown, hfile] using h)
  | some file =>
  by_cases hsz : file.Size > uploadLimit
  · exact Or.inl (by
      simpa [handlerUploadVideo, hid, htok, hjwt, hget, hown, hfile, hsz] using h)
  cases hmt : file.mediaType with
  | none =>
      exact Or.inl (by
        simpa [handlerUploadVideo, hid, htok, hjwt, hget, hown, hfile, hsz, hmt] using h)
  | some mt =>
  by_cases hmp4 : mt = "video/mp4"
  swap
  · exact Or.inl (by
      simpa [handlerUploadVideo, hid, htok, hjwt, hget, hown, hfile, hsz, hmt, hmp4] using h)
  subst hmp4
  cases htmp : env.createTemp with
  | none =>
      exact Or.inl (by
        simpa [handlerUploadVideo, hid, htok, hjwt, hget, hown, hfile, hsz, hmt, osCreateTemp,
          htmp, State.log] using h)
  | some tempName =>
      simp only [handlerUploadVideo, hid, htok, hjwt, hget, hown, hfile, hsz, hmt, osCreateTemp,
        htmp, osRemove, List.mem_append, List.mem_singleton, ne_eq, not_true_eq_false,
        if_false] at h
      rcases h with h | h
      · rcases processStaged_putObject_key cfg env file video _ tempName _ key h with h1 | h1
        · simp only [List.mem_append, List.mem_singleton] at h1
          rcases h1 with h1 | h1
          · exact Or.inl h1
          · cases h1
        · obtain ⟨aspectRatio, hasp, hkey⟩ := h1
          exact Or.inr ⟨tempName, aspectRatio, rfl, hasp, hkey⟩
      · cases h

theorem uploadProcessed_ok (cfg : apiConfig) (env : Env) (video : Video)
    (mimeType folder processedFilePath : String) (st : State)
    (hok : (uploadProcessed cfg env video mimeType folder processedFilePath st).1.status
      = StatusOK) :
    (uploadProcessed cfg env video mimeType folder processedFilePath st).1
        = .json StatusOK
            { video with
              VideoURL := some (cfg.getObjectURL folder (cfg.getAssetPath [mimeType])) } ∧
      (uploadProcessed cfg env video mimeType folder processedFilePath st).2.videos video.ID
        = some { video with
            VideoURL := some (cfg.getObjectURL folder (cfg.getAssetPath [mimeType])) } ∧
      (∃ body,
        (uploadProcessed cfg env video mimeType folder processedFilePath st).2.objects
          (folder ++ "/" ++ cfg.getAssetPath [mimeType]) = some body) := by
  cases hopen : osOpen env processedFilePath st with
  | none => simp [uploadProcessed, hopen, Response.status] at hok
  | some body =>
      by_cases hrand : (env.randErr || env.randN != 32) = true
      · simp [uploadProcessed, hopen, hrand, Response.status] at hok
      · by_cases hput : env.putObjectFails = true
        · simp [uploadProcessed, hopen, hrand, PutObject, hput, Response.status] at hok
        · by_cases hupd : env.updateVideoFails = true
          · simp [uploadProcessed, hopen, hrand, PutObject, hput, UpdateVideo, hupd,
              Response.status] at hok
          · simp [uploadProcessed, hopen, hrand, PutObject, hput, UpdateVideo, hupd, setAt]

theorem processStaged_ok (cfg : apiConfig) (env : Env) (file : FormFile) (video : Video)
    (mimeType tempName : String) (st : State)
    (hok : (processStaged cfg env file video mimeType tempName st).1.status = StatusOK) :
    ∃ aspectRatio, env.getVideoAspectRatio tempName = some aspectRatio ∧
      (processStaged cfg env file video mimeType tempName st).1
        = .json StatusOK
            { video with
              VideoURL := some (cfg.getObjectURL (folderFor aspectRatio)
                (cfg.getAssetPath [mimeType])) } ∧
      (processStaged cfg env file video mimeType tempName st).2.videos video.ID
        = some { video with
            VideoURL := some (cfg.getObjectURL (folderFor aspectRatio)
              (cfg.getAssetPath [mimeType])) } ∧
      (∃ body,
        (processStaged cfg env file video mimeType tempName st).2.objects
          (folderFor aspectRatio ++ "/" ++ cfg.getAssetPath [mimeType]) = some body) := by
  cases hasp : env.getVideoAspectRatio tempName with
  | none => simp [processStaged, hasp, Response.status] at hok
  | some aspectRatio =>
      refine ⟨aspectRatio, rfl, ?_⟩
      unfold processStaged at hok ⊢
      simp only [hasp] at hok ⊢
      cases hp : processVideoForFastStart env tempName (ioCopy env tempName file.content st).2 with
      | mk res st2 =>
          rw [hp] at hok
          cases res with
          | none => simp [Response.status] at hok
          | some processedFilePath =>
              simp only [] at hok
              have h := uploadProcessed_ok cfg env video mimeType (folderFor aspectRatio)
                processedFilePath st2 hok
              simpa [osRemove] using h

/-- A successful run of the video handler: the aspect ratio was obtained for
the staged file, the answer is the record with the object URL built from the
chosen folder and the key, that record is the one stored, and the object lies
under the key "folder/fileKey". -/
theorem handlerUploadVideo_ok (cfg : apiConfig) (env : Env) (r : Request) (st : State)
    (hok : (handlerUploadVideo cfg env r st).1.status = StatusOK) :
    ∃ (vid : UUID) (video : Video) (tempName aspectRatio : String),
      r.videoID = some vid ∧ GetVideo st vid = some video ∧
      env.createTemp = some tempName ∧
      env.getVideoAspectRatio tempName = some aspectRatio ∧
      (handlerUploadVideo cfg env r st).1
        = .json StatusOK
            { video with
              VideoURL := some (cfg.getObjectURL (folderFor aspectRatio)
                (cfg.getAssetPath ["video/mp4"])) } ∧
      (handlerUploadVideo cfg env r st).2.videos video.ID
        = some { video with
            VideoURL := some (cfg.getObjectURL (folderFor aspectRatio)
              (cfg.getAssetPath ["video/mp4"])) } ∧
      (∃ body,
        (handlerUploadVideo cfg env r st).2.objects
          (folderFor aspectRatio ++ "/" ++ cfg.getAssetPath ["video/mp4"]) = some body) := by
  cases hid : r.videoID with
  | none => simp [handlerUploadVideo, hid, Response.status] at hok
  | some vid =>
  cases htok : r.token with
  | none => simp [handlerUploadVideo, hid, htok, Response.status] at hok
  | some tok =>
  cases hjwt : env.ValidateJWT tok with
  | none => simp [handlerUploadVideo, hid, htok, hjwt, Response.status] at hok
  | some uid =>
  cases hget : GetVideo st vid with
  | none => simp [handlerUploadVideo, hid, htok, hjwt, hget, Response.status] at hok
  | some video =>
  by_cases hown : video.UserID = uid
  swap
  · simp [handlerUploadVideo, hid, htok, hjwt, hget, hown, Response.status] at hok
  cases hfile : r.formFile with
  | none => simp [handlerUploadVideo, hid, htok, hjwt, hget, hown, hfile, Response.status] at hok
  | some file =>
  by_cases hsz : file.Size > uploadLimit
  · simp [handlerUploadVideo, hid, htok, hjwt, hget, hown, hfile, hsz, Response.status] at hok
  cases hmt : file.mediaType with
  | none =>
      simp [handlerUploadVideo, hid, htok, hjwt, hget, hown, hfile, hsz, hmt,
        Response.status] at hok
  | some mt =>
  by_cases hmp4 : mt = "video/mp4"
  swap
  · simp [handlerUploadVideo, hid, htok, hjwt, hget, hown, hfile, hsz, hmt, hmp4,
      Response.status] at hok
  subst hmp4
  cases htmp : env.createTemp with
  | none =>
      simp [handlerUploadVideo, hid, htok, hjwt, hget, hown, hfile, hsz, hmt, osCreateTemp,
        htmp, Response.status] at hok
  | some tempName =>
      simp only [handlerUploadVideo, hid, htok, hjwt, hget, hown, hfile, hsz, hmt,
        osCreateTemp, htmp, ne_eq, not_true_eq_false, if_false] at hok ⊢
      obtain ⟨aspectRatio, hasp, h⟩ :=
        processStaged_ok cfg env file video "video/mp4" tempName _ hok
      refine ⟨vid, video, tempName, aspectRatio, rfl, hget, rfl, hasp, ?_⟩
      simpa [osRemove] using h

/-- When the video handler gets as far as `os.CreateTemp`, the staged file is
absent when the handler returns, provided its removal succeeds. -/
theorem handlerUploadVideo_staged_file_removed (cfg : apiConfig) (env : Env) (r : Request)
    (st : State) (vid uid : UUID) (tok : String) (video : Video) (file : FormFile)
    (tempName : String)
    (hid : r.videoID = some vid) (htok : r.token = some tok)
    (hjwt : env.ValidateJWT tok = some uid) (hget : GetVideo st vid = some video)
    (hown : video.UserID = uid) (hfile : r.formFile = some file)
    (hsz : file.Size ≤ uploadLimit) (hmt : file.mediaType = some "video/mp4")
    (htmp : env.createTemp = some tempName) (hrm : env.removeFails tempName = false) :
    (handlerUploadVideo cfg env r st).2.files (env.resolve tempName) = none := by
  have hsz2 : ¬ file.Size > uploadLimit := not_lt.mpr hsz
  simp [handlerUploadVideo, hid, htok, hjwt, hget, hown, hfile, hsz2, hmt, osCreateTemp, htmp,
    osRemove, hrm, setAt]

/-- When the remux returns an output path, the file at that path is absent when
the video handler returns, provided its removal succeeds. -/
theorem handlerUploadVideo_processed_file_removed (cfg : apiConfig) (env : Env)
    (r : Request) (st : State) (vid uid : UUID) (tok : String) (video : Video)
    (file : FormFile) (tempName aspectRatio outputPath : String) (output : Bytes)
    (hid : r.videoID = some vid) (htok : r.token = some tok)
    (hjwt : env.ValidateJWT tok = some uid) (hget : GetVideo st vid = some video)
    (hown : video.UserID = uid) (hfile : r.formFile = some file)
    (hsz : file.Size ≤ uploadLimit) (hmt : file.mediaType = some "video/mp4")
    (htmp : env.createTemp = some tempName)
    (hasp : env.getVideoAspectRatio tempName = some aspectRatio)
    (hremux : env.processVideoForFastStart = .ok outputPath output)
    (hrm : env.removeFails outputPath = false) :
    (handlerUploadVideo cfg env r st).2.files (env.resolve outputPath) = none := by
  have hsz2 : ¬ file.Size > uploadLimit := not_lt.mpr hsz
  by_cases hrt : env.removeFails tempName = true
  · simp [handlerUploadVideo, hid, htok, hjwt, hget, hown, hfile, hsz2, hmt, osCreateTemp,
      htmp, processStaged, hasp, processVideoForFastStart, hremux, osRemove, hrm, hrt, setAt]
  · by_cases hsame : env.resolve outputPath = env.resolve tempName
    · simp [handlerUploadVideo, hid, htok, hjwt, hget, hown, hfile, hsz2, hmt, osCreateTemp,
        htmp, processStaged, hasp, processVideoForFastStart, hremux, osRemove, hrm, hrt, setAt,
        hsame]
    · simp [handlerUploadVideo, hid, htok, hjwt, hget, hown, hfile, hsz2, hmt, osCreateTemp,
        htmp, processStaged, hasp, processVideoForFastStart, hremux, osRemove, hrm, hrt, setAt,
        hsame]

/-- C4, the code at the failing input: when `processVideoForFastStart` returns
an error after the external tool has written to its output file, the video
handler answers 500 and returns before the removal of that file is deferred; the
staged upload is removed, the output file is still on disk. -/
theorem video_remux_failure_leaves_output_file :
    exampleState.files "/tmp/tubely-upload.mp4-1.processing" = none ∧
      (handlerUploadVideo exampleConfig remuxFailsEnv videoRequest exampleState).1
        = .error StatusInternalServerError "Unable to process video" ∧
      (handlerUploadVideo exampleConfig remuxFailsEnv videoRequest exampleState).2.files
          "/tmp/tubely-upload.mp4-1" = none ∧
      (handlerUploadVideo exampleConfig remuxFailsEnv videoRequest exampleState).2.files
          "/tmp/tubely-upload.mp4-1.processing" = some [4] ∧
      (handlerUploadVideo exampleConfig remuxFailsEnv videoRequest exampleState).2.calls
        = [Call.createTemp (some "/tmp/tubely-upload.mp4-1"),
            Call.copy "/tmp/tubely-upload.mp4-1",
            Call.processVideo "/tmp/tubely-upload.mp4-1",
            Call.remove "/tmp/tubely-upload.mp4-1"] := by
  decide

theorem classifyAspectRatio_1920_1080 (tolerance : ℚ) (h0 : 0 ≤ tolerance) :
    classifyAspectRatio tolerance 1920 1080 = "16:9" := by
  have e : ((1920 : ℕ) : ℚ) / ((1080 : ℕ) : ℚ) - 16 / 9 = 0 := by norm_num
  simp only [classifyAspectRatio, e, abs_zero, h0, if_true]

theorem classifyAspectRatio_1080_1920 (tolerance : ℚ) (h0 : 0 ≤ tolerance)
    (h1 : tolerance < 7 / 16) : classifyAspectRatio tolerance 1080 1920 = "9:16" := by
  have e1 : |((1080 : ℕ) : ℚ) / ((1920 : ℕ) : ℚ) - 16 / 9| = 175 / 144 := by
    rw [abs_of_nonpos] <;> norm_num
  have e2 : ((1080 : ℕ) : ℚ) / ((1920 : ℕ) : ℚ) - 9 / 16 = 0 := by norm_num
  have hn : ¬ ((175 : ℚ) / 144 ≤ tolerance) := by
    intro h
    have : (175 : ℚ) / 144 < 7 / 16 := lt_of_le_of_lt h h1
    norm_num at this
  simp only [classifyAspectRatio, e1, hn, if_false, e2, abs_zero, h0, if_true]

theorem classifyAspectRatio_1000_1000 (tolerance : ℚ) (h1 : tolerance < 7 / 16) :
    classifyAspectRatio tolerance 1000 1000 = "other" := by
  have e1 : |((1000 : ℕ) : ℚ) / ((1000 : ℕ) : ℚ) - 16 / 9| = 7 / 9 := by
    rw [abs_of_nonpos] <;> norm_num
  have e2 : |((1000 : ℕ) : ℚ) / ((1000 : ℕ) : ℚ) - 9 / 16| = 7 / 16 := by
    rw [abs_of_nonneg] <;> norm_num
  have hn1 : ¬ ((7 : ℚ) / 9 ≤ tolerance) := by
    intro h
    have : (7 : ℚ) / 9 < 7 / 16 := lt_of_le_of_lt h h1
    norm_num at this
  have hn2 : ¬ ((7 : ℚ) / 16 ≤ tolerance) := not_le.mpr h1
  simp only [classifyAspectRatio, e1, hn1, if_false, e2, hn2]

/-- A successful run of the video handler whose `getVideoAspectRatio` is the one
the spec describes, with a probe of the staged file reporting `width` and
`height`: the record answered and stored carries the object URL under the folder
of that geometry, and the object lies under "folder/fileKey". -/
theorem handlerUploadVideo_ok_of_probe (tolerance : ℚ) (cfg : apiConfig) (env : Env)
    (r : Request) (st : State) (probe : String → Option (Nat × Nat)) (width height : Nat)
    (hhelper : env.getVideoAspectRatio = getVideoAspectRatio tolerance probe)
    (hprobe : ∀ tempName, env.createTemp = some tempName →
      probe tempName = some (width, height))
    (hok : (handlerUploadVideo cfg env r st).1.status = StatusOK) :
    ∃ (vid : UUID) (video : Video), r.videoID = some vid ∧ GetVideo st vid = some video ∧
      (handlerUploadVideo cfg env r st).1
        = .json StatusOK
            { video with
              VideoURL := some (cfg.getObjectURL
                (folderFor (classifyAspectRatio tolerance width height))
                (cfg.getAssetPath ["video/mp4"])) } ∧
      (handlerUploadVideo cfg env r st).2.videos video.ID
        = some { video with
            VideoURL := some (cfg.getObjectURL
              (folderFor (classifyAspectRatio tolerance width height))
              (cfg.getAssetPath ["video/mp4"])) } ∧
      (∃ body,
        (handlerUploadVideo cfg env r st).2.objects
          (folderFor (classifyAspectRatio tolerance width height) ++ "/"
            ++ cfg.getAssetPath ["video/mp4"]) = some body) := by
  obtain ⟨vid, video, tempName, aspectRatio, hid, hget, htmp, hasp, hrest⟩ :=
    handlerUploadVideo_ok cfg env r st hok
  have ha : aspectRatio = classifyAspectRatio tolerance width height := by
    rw [hhelper] at hasp
    simp only [getVideoAspectRatio, hprobe tempName htmp, Option.some.injEq] at hasp
    exact hasp.symm
  subst ha
  exact ⟨vid, video, hid, hget, hrest⟩

/-- C9: the switch of the video handler sends "16:9" to landscape, "9:16" to
portrait and every other ratio to other, so the folder is always one of the
three; with the aspect ratio computed as the spec describes, for a tolerance
below 7/16, a probe of 1920x1080 gives landscape, 1080x1920 portrait and
1000x1000 other; every object the handler uploads has the key "folder/fileKey"
for the folder of the ratio obtained for the staged file, and in a successful
run the record answered and stored carries the object URL built from that same
folder and key, which for the helper of the spec is the folder of the probed
geometry. -/
theorem video_folder_classification (tolerance : ℚ) (h0 : 0 ≤ tolerance)
    (h1 : tolerance < 7 / 16) :
    (folderFor "16:9" = "landscape" ∧ folderFor "9:16" = "portrait" ∧
        (∀ aspectRatio : String, aspectRatio ≠ "16:9" → aspectRatio ≠ "9:16" →
          folderFor aspectRatio = "other")) ∧
      (∀ aspectRatio : String,
        folderFor aspectRatio = "landscape" ∨ folderFor aspectRatio = "portrait" ∨
          folderFor aspectRatio = "other") ∧
      (classifyAspectRatio tolerance 1920 1080 = "16:9" ∧
        classifyAspectRatio tolerance 1080 1920 = "9:16" ∧
        classifyAspectRatio tolerance 1000 1000 = "other") ∧
      (folderFor (classifyAspectRatio tolerance 1920 1080) = "landscape" ∧
        folderFor (classifyAspectRatio tolerance 1080 1920) = "portrait" ∧
        folderFor (classifyAspectRatio tolerance 1000 1000) = "other") ∧
      (∀ (cfg : apiConfig) (env : Env) (r : Request) (st : State) (key : String),
        Call.putObject key ∈ (handlerUploadVideo cfg env r st).2.calls →
        Call.putObject key ∈ st.calls ∨
          ∃ tempName aspectRatio, env.createTemp = some tempName ∧
            env.getVideoAspectRatio tempName = some aspectRatio ∧
            key = folderFor aspectRatio ++ "/" ++ cfg.getAssetPath ["video/mp4"]) ∧
      (∀ (cfg : apiConfig) (env : Env) (r : Request) (st : State),
        (handlerUploadVideo cfg env r st).1.status = StatusOK →
        ∃ (vid : UUID) (video : Video) (tempName aspectRatio : String),
          r.videoID = some vid ∧ GetVideo st vid = some video ∧
          env.createTemp = some tempName ∧
          env.getVideoAspectRatio tempName = some aspectRatio ∧
          (handlerUploadVideo cfg env r st).1
            = .json StatusOK
                { video with
                  VideoURL := some (cfg.getObjectURL (folderFor aspectRatio)
                    (cfg.getAssetPath ["video/mp4"])) } ∧
          (handlerUploadVideo cfg env r st).2.videos video.ID
            = some { video with
                VideoURL := some (cfg.getObjectURL (folderFor aspectRatio)
                  (cfg.getAssetPath ["video/mp4"])) } ∧
          (∃ body,
            (handlerUploadVideo cfg env r st).2.objects
              (folderFor aspectRatio ++ "/" ++ cfg.getAssetPath ["video/mp4"])
                = some body)) ∧
      (∀ (cfg : apiConfig) (env : Env) (r : Request) (st : State)
          (probe : String → Option (Nat × Nat)) (width height : Nat),
        env.getVideoAspectRatio = getVideoAspectRatio tolerance probe →
        (∀ tempName, env.createTemp = some tempName →
          probe tempName = some (width, height)) →
        (handlerUploadVideo cfg env r st).1.status = StatusOK →
        ∃ (vid : UUID) (video : Video), r.videoID = some vid ∧
          GetVideo st vid = some video ∧
          (handlerUploadVideo cfg env r st).1
            = .json StatusOK
                { video with
                  VideoURL := some (cfg.getObjectURL
                    (folderFor (classifyAspectRatio tolerance width height))
                    (cfg.getAssetPath ["video/mp4"])) } ∧
          (handlerUploadVideo cfg env r st).2.videos video.ID
            = some { video with
                VideoURL := some (cfg.getObjectURL
                  (folderFor (classifyAspectRatio tolerance width height))
                  (cfg.getAssetPath ["video/mp4"])) } ∧
          (∃ body,
            (handlerUploadVideo cfg env r st).2.objects
              (folderFor (classifyAspectRatio tolerance width height) ++ "/"
                ++ cfg.getAssetPath ["video/mp4"]) = some body)) := by
  have c1 := classifyAspectRatio_1920_1080 tolerance h0
  have c2 := classifyAspectRatio_1080_1920 tolerance h0 h1
  have c3 := classifyAspectRatio_1000_1000 tolerance h1
  refine ⟨⟨by decide, by decide, folderFor_default⟩, folderFor_cases, ⟨c1, c2, c3⟩,
    ⟨?_, ?_, ?_⟩, ?_, ?_, ?_⟩
  · rw [c1]
    decide
  · rw [c2]
    decide
  · rw [c3]
    decide
  · intro cfg env r st key h
    exact handlerUploadVideo_putObject_key cfg env r st key h
  · intro cfg env r st hok
    exact handlerUploadVideo_ok cfg env r st hok
  · intro cfg env r st probe width height hhelper hprobe hok
    exact handlerUploadVideo_ok_of_probe tolerance cfg env r st probe width height hhelper
      hprobe hok

theorem video_folder_classification_witness :
    folderFor (classifyAspectRatio (1 / 100) 1920 1080) = "landscape" ∧
      folderFor (classifyAspectRatio (1 / 100) 1080 1920) = "portrait" ∧
      folderFor (classifyAspectRatio (1 / 100) 1000 1000) = "other" ∧
      folderFor "4:3" = "other" ∧
      (handlerUploadVideo exampleConfig portraitProbeEnv videoRequest exampleState).2.videos 10
        = some { exampleVideo with
            VideoURL := some "https://tubely.s3.amazonaws.com/portrait/clip.mp4" } ∧
      (∃ body,
        (handlerUploadVideo exampleConfig portraitProbeEnv videoRequest exampleState).2.objects
          "portrait/clip.mp4" = some body) :=
  have h := video_folder_classification (1 / 100) (by norm_num) (by norm_num)
  have henv : portraitProbeEnv
      = { exampleEnv with getVideoAspectRatio := fun _ => some "9:16" } := by
    have hf : getVideoAspectRatio (1 / 100) (fun _ => some (1080, 1920))
        = fun _ => some "9:16" := by
      funext filePath
      simp only [getVideoAspectRatio, h.2.2.1.2.1]
    show ({ exampleEnv with
      getVideoAspectRatio := getVideoAspectRatio (1 / 100) (fun _ => some (1080, 1920)) } : Env)
      = _
    rw [hf]
  have hok : (handlerUploadVideo exampleConfig portraitProbeEnv videoRequest
      exampleState).1.status = StatusOK := by
    rw [henv]
    decide
  ⟨h.2.2.2.1.1, h.2.2.2.1.2.1, h.2.2.2.1.2.2, h.1.2.2 "4:3" (by decide) (by decide), by
    obtain ⟨vid, video, hid, hget, _, hst, body, hbody⟩ :=
      h.2.2.2.2.2.2 exampleConfig portraitProbeEnv videoRequest exampleState
        (fun _ => some (1080, 1920)) 1080 1920 rfl (fun _ _ => rfl) hok
    have hv : vid = 10 := by
      have : videoRequest.videoID = some 10 := rfl
      rw [this] at hid
      exact (Option.some.inj hid).symm
    subst hv
    have hvideo : video = exampleVideo := by
      have : GetVideo exampleState 10 = some exampleVideo := by decide
      rw [this] at hget
      exact (Option.some.inj hget).symm
    subst hvideo
    rw [h.2.2.2.1.2.1] at hst hbody
    exact ⟨hst, body, hbody⟩⟩

end FileStorage
